import Mathlib

/-!
Verification of the build-orchestration core of the `sadm` repository
(`central/buildbot.py` and `central/utils.py`).

Byte strings are modelled as `List Nat` (one natural per byte).  The pure
encoding functions (`make_netstring`, `make_build_request`) are translated
directly; the stateful workers (`PullRequestBuilder.run`,
`BuildStatusCollector.run`, `DaemonThread.run`) are translated as explicit
functions over the queue contents, with the external network/filesystem
calls passed in as parameters.
-/

/-! ## Decimal rendering of naturals

Models Python's `str(n)` for a non-negative integer `n`: the decimal digits
of `n`, most significant first, with `0` rendered as `"0"`.  Implemented
with a fuel argument so that it is structurally recursive (the fuel `n`
itself is always sufficient since `n / 10 < n` for `n > 0`). -/

def decDigitsAux : Nat → Nat → List Nat
  | _, 0 => []
  | 0, _ + 1 => []
  | fuel + 1, n + 1 => decDigitsAux fuel ((n + 1) / 10) ++ [(n + 1) % 10]

/-- Decimal digits (each in `0..9`, most significant first) of `n`, as
Python's `str` produces them; `0` gives `[0]`. -/
def decDigits (n : Nat) : List Nat :=
  if n = 0 then [0] else decDigitsAux n n

/-- Python `str(n)` as a list of characters. -/
def decChars (n : Nat) : List Char :=
  (decDigits n).map (fun d => Char.ofNat (48 + d))

/-- Python `str(n)` as a `String`. -/
def decStr (n : Nat) : String :=
  String.mk (decChars n)

/-- Python `str(n).encode('ascii')`: the ASCII bytes of the decimal digits. -/
def decRepr (n : Nat) : List Nat :=
  (decDigits n).map (fun d => 48 + d)

/-- Python `s.encode('ascii')` for an ASCII string: code points of the chars. -/
def strBytes (s : String) : List Nat :=
  s.data.map Char.toNat

/-! ## `make_netstring` (central/buildbot.py, lines 20-22)

`return str(len(s)).encode('ascii') + b':' + s + b','` -/

def make_netstring (s : List Nat) : List Nat :=
  decRepr s.length ++ [58] ++ s ++ [44]

/-- Is the byte an ASCII decimal digit (`'0'` = 48 .. `'9'` = 57)? -/
def isDigitByte (b : Nat) : Bool :=
  decide (48 ≤ b) && decide (b ≤ 57)

/-- A netstring parser, as described by the specification: read the decimal
length up to the colon, take exactly that many payload bytes, and expect a
trailing comma. -/
def parseNetstring (input : List Nat) : Option (List Nat) :=
  let ds := input.takeWhile isDigitByte
  let rest := input.dropWhile isDigitByte
  if ds = [] then none
  else
    match rest with
    | 58 :: rest2 =>
      let len := ds.foldl (fun acc d => 10 * acc + (d - 48)) 0
      if rest2.drop len = [44] then some (rest2.take len) else none
    | _ => none

/-! ## JSON encoding, as `json.dumps(..., ensure_ascii=True)` renders it

Python's `json.dumps` with default separators emits `", "` between items,
`": "` between a key and its value, and escapes every character outside
`0x20..0x7e` (plus backslash and double quote) in strings; characters above
`0xffff` become a UTF-16 surrogate pair of `\uXXXX` escapes.  Only the
value shapes actually present in `make_build_request`'s dictionary are
modelled: strings, non-negative integers, `None`, a list of strings, and
the two fixed-shape objects. -/

/-- Lowercase hexadecimal digit, as `'%04x'` formatting produces. -/
def hexChar (n : Nat) : Char :=
  if n < 10 then Char.ofNat (48 + n) else Char.ofNat (87 + n)

/-- A `\uXXXX` escape for a code unit below `0x10000`. -/
def uEscape (n : Nat) : List Char :=
  ['\\', 'u', hexChar (n / 4096 % 16), hexChar (n / 256 % 16), hexChar (n / 16 % 16),
    hexChar (n % 16)]

/-- How `json.dumps(..., ensure_ascii=True)` renders one character of a
string: short escapes for backslash, quote and the common control
characters, `\uXXXX` for other characters outside `0x20..0x7e`, and the
character itself otherwise. -/
def escapeChar (c : Char) : List Char :=
  if c = '\\' then ['\\', '\\']
  else if c = Char.ofNat 34 then ['\\', Char.ofNat 34]
  else if c = Char.ofNat 10 then ['\\', 'n']
  else if c = Char.ofNat 13 then ['\\', 'r']
  else if c = Char.ofNat 9 then ['\\', 't']
  else if c = Char.ofNat 8 then ['\\', 'b']
  else if c = Char.ofNat 12 then ['\\', 'f']
  else if c.toNat < 32 then uEscape c.toNat
  else if c.toNat < 127 then [c]
  else if c.toNat < 65536 then uEscape c.toNat
  else uEscape (55296 + (c.toNat - 65536) / 1024) ++ uEscape (56320 + (c.toNat - 65536) % 1024)

/-- A JSON string literal: quote, escaped characters, quote. -/
def jsonStrChars (s : String) : List Char :=
  Char.ofNat 34 :: (s.data.map escapeChar).flatten ++ [Char.ofNat 34]

/-- The comma-space separated items of a JSON array of strings. -/
def jsonStrListChars : List String → List Char
  | [] => []
  | [x] => jsonStrChars x
  | x :: y :: rest => jsonStrChars x ++ [',', ' '] ++ jsonStrListChars (y :: rest)

/-- A JSON object key followed by the `": "` separator. -/
def jsonKey (k : String) : List Char :=
  jsonStrChars k ++ [':', ' ']

/-- A JSON string or `null` for an optional string (`patch_body` is `None`). -/
def jsonOptStrChars : Option String → List Char
  | none => ['n', 'u', 'l', 'l']
  | some sv => jsonStrChars sv

/-! ## `make_build_request` (central/buildbot.py, lines 25-49) -/

/-- The `properties` sub-dictionary of the build request, in insertion
order. -/
structure BuildRequestProperties where
  branchname : String
  baserev : String
  headrev : String
  shortrev : String
  pr_id : Nat
  repo : String
deriving DecidableEq

/-- The `request_dict` built by `make_build_request`, fields in insertion
order. -/
structure BuildRequestDict where
  branch : String
  builderNames : List String
  jobid : String
  baserev : String
  patch_level : Nat
  patch_body : Option String
  who : String
  comment : String
  properties : BuildRequestProperties
deriving DecidableEq

/-- The `request_dict` literal of `make_build_request`.  The configured
builder list `cfg.buildbot.pr_builders` is passed explicitly. -/
def make_request_dict (pr_builders : List String) (repo : String) (pr_id : Nat)
    (job_id baserev headrev who comment : String) : BuildRequestDict where
  branch := "refs/pull/" ++ decStr pr_id ++ "/head"
  builderNames := pr_builders
  jobid := job_id
  baserev := ""
  patch_level := 0
  patch_body := none
  who := who
  comment := comment
  properties :=
    { branchname := "pr-" ++ decStr pr_id
      baserev := baserev
      headrev := headrev
      shortrev := headrev.take 6
      pr_id := pr_id
      repo := repo }

/-- The pieces of `json.dumps(request_dict, ensure_ascii=True)`, in output
order: opening brace, then for each key (in insertion order) the quoted key,
`": "`, its rendered value, and `", "` between entries; the nested
`properties` object at the end, then the two closing braces. -/
def requestSegments (d : BuildRequestDict) : List (List Char) :=
  [[Char.ofNat 123],
   jsonKey "branch", jsonStrChars d.branch, [',', ' '],
   jsonKey "builderNames", ['['], jsonStrListChars d.builderNames, [']'], [',', ' '],
   jsonKey "jobid", jsonStrChars d.jobid, [',', ' '],
   jsonKey "baserev", jsonStrChars d.baserev, [',', ' '],
   jsonKey "patch_level", decChars d.patch_level, [',', ' '],
   jsonKey "patch_body", jsonOptStrChars d.patch_body, [',', ' '],
   jsonKey "who", jsonStrChars d.who, [',', ' '],
   jsonKey "comment", jsonStrChars d.comment, [',', ' '],
   jsonKey "properties", [Char.ofNat 123],
   jsonKey "branchname", jsonStrChars d.properties.branchname, [',', ' '],
   jsonKey "baserev", jsonStrChars d.properties.baserev, [',', ' '],
   jsonKey "headrev", jsonStrChars d.properties.headrev, [',', ' '],
   jsonKey "shortrev", jsonStrChars d.properties.shortrev, [',', ' '],
   jsonKey "pr_id", decChars d.properties.pr_id, [',', ' '],
   jsonKey "repo", jsonStrChars d.properties.repo,
   [Char.ofNat 125, Char.ofNat 125]]

/-- `json.dumps(request_dict, ensure_ascii=True)` for the fixed shape of the
request dictionary, with Python's default `", "` / `": "` separators and
insertion-ordered keys. -/
def dumpRequestDict (d : BuildRequestDict) : List Char :=
  (requestSegments d).flatten

/-- `make_build_request(repo, pr_id, job_id, baserev, headrev, who, comment)`:
the netstring-framed protocol version `b'5'` followed by the netstring-framed
ASCII JSON encoding of the request dictionary. -/
def make_build_request (pr_builders : List String) (repo : String) (pr_id : Nat)
    (job_id baserev headrev who comment : String) : List Nat :=
  let encoded := (dumpRequestDict
    (make_request_dict pr_builders repo pr_id job_id baserev headrev who comment)).map Char.toNat
  make_netstring (strBytes "5") ++ make_netstring encoded

/-! ## `send_build_request` (central/buildbot.py, lines 52-59)

The filesystem is modelled as a map from paths to file contents; `uuid4()`
values are passed in as the two fresh names `u1` (for `tmp/`) and `u2`
(for `new/`). -/

/-- A filesystem: a map from path to file contents. -/
abbrev FS : Type := String → Option (List Nat)

/-- `open(path, 'wb').write(content)`: create or overwrite one file. -/
def fsWrite (fs : FS) (p : String) (c : List Nat) : FS :=
  Function.update fs p (some c)

/-- `os.rename(src, dst)`: one atomic step that removes `src` and makes its
contents appear at `dst`; fails if `src` does not exist. -/
def osRename (fs : FS) (src dst : String) : Option FS :=
  match fs src with
  | none => none
  | some c => some (Function.update (Function.update fs src none) dst (some c))

/-- `os.path.join(a, b)` for the paths used here. -/
def pathJoin (a b : String) : String :=
  a ++ "/" ++ b

/-- `send_build_request(build_request)`: write the bytes to
`jobdir/tmp/<uuid>`, then atomically rename to `jobdir/new/<uuid>`. -/
def send_build_request (jobdir u1 u2 : String) (build_request : List Nat) (fs : FS) :
    Option FS :=
  let path := pathJoin (pathJoin jobdir "tmp") u1
  let fs1 := fsWrite fs path build_request
  let final_path := pathJoin (pathJoin jobdir "new") u2
  osRename fs1 path final_path

/-! ## Event types

Modelled from the spec: the `events` module (not part of the two source
files) defines `BuildStatus(repository, headRevision, shortRevision,
builderName, pullRequestId, success, pending, detailsUrl, description)` and
`PullRequestFifoCIStatus(repository, headRevision, builderName,
pullRequestId)` as plain data carriers; the field lists follow §3 of the
specification and the positional construction at the call sites in
`central/buildbot.py`. -/

/-- A Python scalar property value: a string or an integer. -/
inductive PV where
  | s (v : String)
  | i (v : Int)
deriving DecidableEq

/-- Modelled from the spec: `events.BuildStatus`, the outward-facing
normalized status event (§3 BuildStatusEvent). -/
structure BuildStatus where
  repository : PV
  headRevision : PV
  shortRevision : PV
  builderName : String
  pullRequestId : Option PV
  success : Bool
  pending : Bool
  detailsUrl : String
  description : String
deriving DecidableEq

/-- Modelled from the spec: `events.PullRequestFifoCIStatus`, the narrower
downstream-CI confirmation event (§4.4). -/
structure PullRequestFifoCIStatus where
  repository : PV
  headRevision : PV
  builderName : String
  pullRequestId : Option PV
deriving DecidableEq

/-! ## The Dispatch Worker: `PullRequestBuilder.run`
(central/buildbot.py, lines 62-115) -/

/-- The configuration surface read by the pipeline
(`cfg.buildbot.pr_builders`, `cfg.buildbot.fifoci_builders`,
`cfg.buildbot.url`, `cfg.buildbot.jobdir`). -/
structure BuildbotConfig where
  pr_builders : List String
  fifoci_builders : List String
  url : String
  jobdir : String
deriving DecidableEq

/-- One queued build trigger `(in_behalf_of, trusted, repo, pr_id)`. -/
structure Trigger where
  in_behalf_of : String
  trusted : Bool
  repo : String
  pr_id : Nat
deriving DecidableEq

/-- The fields of the GitHub pull-request JSON that `run` reads:
`mergeable` is tri-state (`True`/`False`/`None`). -/
structure PRInfo where
  mergeable : Option Bool
  mergeable_state : String
  base_sha : String
  head_sha : String
deriving DecidableEq

/-- One observable action of the Dispatch Worker: dispatching a status event
on the bus, or submitting an encoded job to the job directory. -/
inductive WorkerAction where
  | dispatch (e : BuildStatus)
  | submit (r : List Nat)
deriving DecidableEq

/-- The body of `PullRequestBuilder.run` for one dequeued trigger, after the
pull request `pr` has been fetched from GitHub: the list of dispatched
events and job submissions, in program order. -/
def PullRequestBuilder.processTrigger (cfg : BuildbotConfig) (t : Trigger) (pr : PRInfo) :
    List WorkerAction :=
  let shortrev := pr.head_sha.take 6
  if t.trusted = false then
    [.dispatch ⟨.s t.repo, .s pr.head_sha, .s shortrev, "default", some (.i t.pr_id),
      false, false, "", "PR not built because " ++ t.in_behalf_of ++ " is not auto-trusted."⟩]
  else if pr.mergeable = some false then
    [.dispatch ⟨.s t.repo, .s pr.head_sha, .s shortrev, "default", some (.i t.pr_id),
      false, false, "", "PR cannot be merged, please rebase."⟩]
  else
    [WorkerAction.dispatch ⟨.s t.repo, .s pr.head_sha, .s shortrev, "default", some (.i t.pr_id),
      true, false, "", "Very basic checks passed, handed off to Buildbot."⟩]
    ++ cfg.pr_builders.map (fun builder =>
        .dispatch ⟨.s t.repo, .s pr.head_sha, .s shortrev, builder, some (.i t.pr_id),
          false, true, cfg.url, "Auto build pending"⟩)
    ++ [.submit (make_build_request cfg.pr_builders t.repo t.pr_id
          (decStr t.pr_id ++ "-" ++ pr.head_sha.take 6) pr.base_sha pr.head_sha
          ("Central (on behalf of: " ++ t.in_behalf_of ++ ")")
          ("Auto build for PR #" ++ decStr t.pr_id ++ " (" ++ pr.head_sha ++ ")."))]

/-- One trigger processed behind the fallible GitHub fetch: the `requests.get`
call may raise, in which case the exception escapes `run`. -/
def PullRequestBuilder.processTriggerE (cfg : BuildbotConfig)
    (fetch : Trigger → Except String PRInfo) (t : Trigger) :
    Except String (List WorkerAction) :=
  (fetch t).map (fun pr => PullRequestBuilder.processTrigger cfg t pr)

/-- One call of `PullRequestBuilder.run` over the queued triggers: it
processes triggers in order until an exception escapes (returning the
triggers not yet consumed) or the queue is exhausted. -/
def PullRequestBuilder.runOnce (cfg : BuildbotConfig)
    (fetch : Trigger → Except String PRInfo) :
    List Trigger → List (List WorkerAction) × Option (List Trigger)
  | [] => ([], none)
  | t :: ts =>
    match PullRequestBuilder.processTriggerE cfg fetch t with
    | .error _ => ([], some ts)
    | .ok out =>
      let r := PullRequestBuilder.runOnce cfg fetch ts
      (out :: r.1, r.2)

/-- `PullRequestBuilder.run` under its `DaemonThread` supervisor: whenever an
exception terminates `run`, the supervisor logs it, sleeps, and restarts
`run`, which continues with the triggers still in the queue.  `fuel` bounds
the number of restarts observed. -/
def PullRequestBuilder.supervisedRun (cfg : BuildbotConfig)
    (fetch : Trigger → Except String PRInfo) : Nat → List Trigger → List (List WorkerAction)
  | 0, _ => []
  | fuel + 1, q =>
    match PullRequestBuilder.runOnce cfg fetch q with
    | (outs, none) => outs
    | (outs, some rem) => outs ++ PullRequestBuilder.supervisedRun cfg fetch fuel rem

/-! ## The Supervised Task Runner: `DaemonThread.run`
(central/utils.py, lines 37-44)

```
while True:
    try:
        self.daemon_target(...)
    except Exception:
        logging.exception(...)
        time.sleep(1)
```

The wrapped function is modelled by what it does on its `i`-th invocation;
the trace records each invocation and each log-and-sleep-one-second step.
`fuel` bounds the number of loop iterations observed — the loop itself
never exits. -/

/-- One observable step of `DaemonThread.run`. -/
inductive DtAction where
  | invoke (i : Nat)
  | logSleep
deriving DecidableEq

/-- The trace of `fuel` iterations of `DaemonThread.run`, starting from the
`i`-th invocation of the target. -/
def DaemonThread.runTrace (target : Nat → Except String Unit) : Nat → Nat → List DtAction
  | 0, _ => []
  | fuel + 1, i =>
    DtAction.invoke i ::
      (match target i with
       | .error _ => DtAction.logSleep :: DaemonThread.runTrace target fuel (i + 1)
       | .ok _ => DaemonThread.runTrace target fuel (i + 1))

/-- How many times the wrapped function was invoked in a trace. -/
def invokeCount (tr : List DtAction) : Nat :=
  (tr.filter (fun a => match a with | .invoke _ => true | .logSleep => false)).length

/-! ## The Status Collector: `BuildStatusCollector.run`
(central/buildbot.py, lines 184-226) -/

/-- An inbound raw build result: `evt.builder.name`, `evt.complete`,
`evt.results`, `evt.url` and the `properties` mapping whose values are
lists. -/
structure RawResult where
  builder_name : String
  complete : Bool
  results : Int
  url : String
  properties : List (String × List PV)
deriving DecidableEq

/-- An event dispatched by the collector. -/
inductive CollectorEvent where
  | status (e : BuildStatus)
  | fifoci (e : PullRequestFifoCIStatus)
deriving DecidableEq

/-- `{k: v[0] for k, v in evt.properties.items()}`; `none` models the
`IndexError` raised when some value list is empty. -/
def collapseProps : List (String × List PV) → Option (List (String × PV))
  | [] => some []
  | (_, []) :: _ => none
  | (k, v :: _) :: rest => (collapseProps rest).map (fun r => (k, v) :: r)

/-- Python truthiness of `props.pr_id`: `None`, `0` and `''` are falsy
(`utils.ObjectLike.__getattr__` returns `None` for a missing key). -/
def pvTruthy : Option PV → Bool
  | none => false
  | some (.i n) => decide (n ≠ 0)
  | some (.s v) => decide (v ≠ "")

/-- The body of `BuildStatusCollector.run` for one dequeued raw result: the
events it dispatches (`none` models the `IndexError` on a malformed
property list).  Missing `headrev`/`repo`/`shortrev` keys drop the result;
`props.pr_id` is looked up through `ObjectLike.__getattr__`, which yields
`None` when the key is absent. -/
def BuildStatusCollector.processResult (cfg : BuildbotConfig) (evt : RawResult) :
    Option (List CollectorEvent) :=
  match collapseProps evt.properties with
  | none => none
  | some props =>
    match props.lookup "headrev", props.lookup "repo", props.lookup "shortrev" with
    | some headrev, some repo, some shortrev =>
      let pr_id := props.lookup "pr_id"
      let pending := !evt.complete
      let success := evt.results == 0 || evt.results == 1
      if evt.builder_name ∈ cfg.pr_builders then
        let description :=
          if pending then "Auto build in progress on builder " ++ evt.builder_name
          else if success then "Build succeeded on builder " ++ evt.builder_name
          else "Build failed on builder " ++ evt.builder_name
        some [.status ⟨repo, headrev, shortrev, evt.builder_name, pr_id, success, pending,
          evt.url, description⟩]
      else if pvTruthy pr_id = true ∧ evt.builder_name ∈ cfg.fifoci_builders ∧ success = true then
        some [.fifoci ⟨repo, headrev, evt.builder_name, pr_id⟩]
      else
        some []
    | _, _, _ => some []

/-- Every character of the list is ASCII (code point below 128). -/
abbrev asciiChars (l : List Char) : Prop :=
  ∀ c ∈ l, c.toNat < 128

/-! # Theorems -/

/-! ## Arithmetic facts about the decimal rendering -/

theorem decDigitsAux_eq (fuel : Nat) :
    ∀ n, n ≤ fuel → decDigitsAux fuel n = (Nat.digits 10 n).reverse := by
  induction fuel with
  | zero =>
    intro n h
    interval_cases n
    simp [decDigitsAux]
  | succ f ih =>
    intro n h
    match n with
    | 0 => simp [decDigitsAux]
    | m + 1 =>
      have hd : (m + 1) / 10 < m + 1 := Nat.div_lt_self (Nat.succ_pos m) (by norm_num)
      rw [show decDigitsAux (f + 1) (m + 1)
            = decDigitsAux f ((m + 1) / 10) ++ [(m + 1) % 10] from rfl]
      rw [ih _ (by omega)]
      rw [Nat.digits_def' (by norm_num : 1 < 10) (Nat.succ_pos m)]
      simp

theorem decDigits_eq (n : Nat) (hn : n ≠ 0) :
    decDigits n = (Nat.digits 10 n).reverse := by
  rw [decDigits, if_neg hn, decDigitsAux_eq n n le_rfl]

theorem decDigits_lt_ten (n : Nat) : ∀ d ∈ decDigits n, d < 10 := by
  intro d hd
  by_cases hn : n = 0
  · subst hn
    simp [decDigits] at hd
    omega
  · rw [decDigits_eq n hn, List.mem_reverse] at hd
    exact Nat.digits_lt_base (by norm_num) hd

theorem decDigits_ne_nil (n : Nat) : decDigits n ≠ [] := by
  by_cases hn : n = 0
  · subst hn; simp [decDigits]
  · rw [decDigits_eq n hn]
    simp [Nat.digits_ne_nil_iff_ne_zero, hn]

theorem foldr_eq_ofDigits (L : List Nat) :
    L.foldr (fun d acc => 10 * acc + d) 0 = Nat.ofDigits 10 L := by
  induction L with
  | nil => simp [Nat.ofDigits]
  | cons d L ih =>
    rw [List.foldr_cons, ih, Nat.ofDigits_cons]
    ring

theorem decDigits_foldl (n : Nat) :
    (decDigits n).foldl (fun acc d => 10 * acc + d) 0 = n := by
  by_cases hn : n = 0
  · subst hn; simp [decDigits]
  · rw [decDigits_eq n hn, List.foldl_reverse]
    have : (fun x y => 10 * y + x) = (fun d acc => 10 * acc + d) := rfl
    rw [this, foldr_eq_ofDigits, Nat.ofDigits_digits]

theorem decRepr_bounds (n : Nat) : ∀ b ∈ decRepr n, 48 ≤ b ∧ b ≤ 57 := by
  intro b hb
  rw [decRepr] at hb
  obtain ⟨d, hd, rfl⟩ := List.mem_map.mp hb
  have := decDigits_lt_ten n d hd
  omega

theorem decRepr_ne_nil (n : Nat) : decRepr n ≠ [] := by
  rw [decRepr]
  simp [decDigits_ne_nil]

theorem decRepr_foldl (n : Nat) :
    (decRepr n).foldl (fun acc d => 10 * acc + (d - 48)) 0 = n := by
  rw [decRepr, List.foldl_map]
  have h : ∀ (acc d : Nat), 10 * acc + (48 + d - 48) = 10 * acc + d := by
    intro acc d; omega
  calc (decDigits n).foldl (fun acc d => 10 * acc + (48 + d - 48)) 0
      = (decDigits n).foldl (fun acc d => 10 * acc + d) 0 := by
        congr 1
        funext acc d
        exact h acc d
    _ = n := decDigits_foldl n

theorem takeWhile_append_stop {α} (p : α → Bool) (l1 : List α) (a : α) (l2 : List α)
    (h1 : ∀ x ∈ l1, p x = true) (ha : p a = false) :
    (l1 ++ a :: l2).takeWhile p = l1 ∧ (l1 ++ a :: l2).dropWhile p = a :: l2 := by
  induction l1 with
  | nil =>
    constructor
    · simp [List.takeWhile_cons, ha]
    · simp [List.dropWhile_cons, ha]
  | cons x xs ih =>
    have hx : p x = true := h1 x (by simp)
    have hrec := ih (fun y hy => h1 y (by simp [hy]))
    constructor
    · simp [List.takeWhile_cons, hx, hrec.1]
    · simp [List.dropWhile_cons, hx, hrec.2]

theorem parse_make_netstring (s : List Nat) :
    parseNetstring (make_netstring s) = some s := by
  have hall : ∀ x ∈ decRepr s.length, isDigitByte x = true := by
    intro x hx
    have := decRepr_bounds s.length x hx
    simp [isDigitByte]
    omega
  have h58 : isDigitByte 58 = false := by decide
  have hshape : make_netstring s = decRepr s.length ++ 58 :: (s ++ [44]) := by
    rw [make_netstring]
    simp
  have hsplit := takeWhile_append_stop isDigitByte (decRepr s.length) 58 (s ++ [44]) hall h58
  rw [hshape, parseNetstring]
  simp only [hsplit.1, hsplit.2]
  rw [if_neg (decRepr_ne_nil s.length)]
  simp only [decRepr_foldl]
  rw [List.drop_left' rfl, List.take_left' rfl]
  simp

/-- Claim C7: for every raw result whose collapsed properties contain
`headrev`, `repo` and `shortrev`: `pending` is the negation of `complete` and
`success` holds exactly when the result code is 0 or 1; a PR-builder result
with `complete = true` and `resultCode = 1` (warning) yields the
`success = true, pending = false` event with description
`"Build succeeded on builder <name>"`; a non-PR-builder result with a truthy
pull-request id, a builder in the downstream-CI (fifoci) set and result code
0 yields exactly one downstream-confirmation event and no standard status
event; and a downstream result without success yields no event at all. -/
theorem c7_collector_classification (cfg : BuildbotConfig) (evt : RawResult)
    (props : List (String × PV)) (headrev repo shortrev : PV)
    (hc : collapseProps evt.properties = some props)
    (hh : props.lookup "headrev" = some headrev)
    (hr : props.lookup "repo" = some repo)
    (hs : props.lookup "shortrev" = some shortrev) :
    (evt.builder_name ∈ cfg.pr_builders →
      ∃ d, BuildStatusCollector.processResult cfg evt =
        some [.status ⟨repo, headrev, shortrev, evt.builder_name, props.lookup "pr_id",
          evt.results == 0 || evt.results == 1, !evt.complete, evt.url, d⟩]) ∧
    (evt.builder_name ∈ cfg.pr_builders → evt.complete = true → evt.results = 1 →
      BuildStatusCollector.processResult cfg evt =
        some [.status ⟨repo, headrev, shortrev, evt.builder_name, props.lookup "pr_id",
          true, false, evt.url, "Build succeeded on builder " ++ evt.builder_name⟩]) ∧
    (evt.builder_name ∉ cfg.pr_builders → pvTruthy (props.lookup "pr_id") = true →
      evt.builder_name ∈ cfg.fifoci_builders → evt.results = 0 →
      BuildStatusCollector.processResult cfg evt =
        some [.fifoci ⟨repo, headrev, evt.builder_name, props.lookup "pr_id"⟩]) ∧
    (evt.builder_name ∉ cfg.pr_builders → evt.results ≠ 0 → evt.results ≠ 1 →
      BuildStatusCollector.processResult cfg evt = some []) := by
  refine ⟨?_, ?_, ?_, ?_⟩
  · intro hmem
    refine ⟨if !evt.complete then "Auto build in progress on builder " ++ evt.builder_name
      else if evt.results == 0 || evt.results == 1 then
        "Build succeeded on builder " ++ evt.builder_name
      else "Build failed on builder " ++ evt.builder_name, ?_⟩
    rw [BuildStatusCollector.processResult, hc]
    simp only [hh, hr, hs]
    rw [if_pos hmem]
  · intro hmem hcomp hres
    rw [BuildStatusCollector.processResult, hc]
    simp only [hh, hr, hs, hcomp, hres]
    rw [if_pos hmem]
    simp
  · intro hmem htruthy hfif hres
    rw [BuildStatusCollector.processResult, hc]
    simp only [hh, hr, hs, hres]
    rw [if_neg hmem, if_pos ⟨htruthy, hfif, by simp⟩]
  · intro hmem hres0 hres1
    rw [BuildStatusCollector.processResult, hc]
    simp only [hh, hr, hs]
    rw [if_neg hmem, if_neg ?_]
    rintro ⟨-, -, hsucc⟩
    simp only [Bool.or_eq_true, beq_iff_eq] at hsucc
    rcases hsucc with h | h
    · exact hres0 h
    · exact hres1 h

/-- Claim C7 witness: a warning (`resultCode = 1`, complete) from PR builder
`"linux"` yields the success status event; a success from fifoci builder
`"fifoci"` with `pr_id = 7` yields exactly the downstream-confirmation event;
a failing fifoci result (`resultCode = 2`) yields no event. -/
theorem c7_collector_classification_witness :
    collapseProps (RawResult.mk "linux" true 1 "http://b/42"
        [("headrev", [.s "abc123def"]), ("repo", [.s "org/repo"]),
         ("shortrev", [.s "abc123"]), ("pr_id", [.i 7])]).properties
      = some [("headrev", .s "abc123def"), ("repo", .s "org/repo"),
          ("shortrev", .s "abc123"), ("pr_id", .i 7)] ∧
    BuildStatusCollector.processResult ⟨["linux", "win"], ["fifoci"], "u", "j"⟩
        ⟨"linux", true, 1, "http://b/42",
          [("headrev", [.s "abc123def"]), ("repo", [.s "org/repo"]),
           ("shortrev", [.s "abc123"]), ("pr_id", [.i 7])]⟩
      = some [.status ⟨.s "org/repo", .s "abc123def", .s "abc123", "linux", some (.i 7),
          true, false, "http://b/42", "Build succeeded on builder " ++ "linux"⟩] ∧
    BuildStatusCollector.processResult ⟨["linux", "win"], ["fifoci"], "u", "j"⟩
        ⟨"fifoci", true, 0, "http://b/43",
          [("headrev", [.s "abc123def"]), ("repo", [.s "org/repo"]),
           ("shortrev", [.s "abc123"]), ("pr_id", [.i 7])]⟩
      = some [.fifoci ⟨.s "org/repo", .s "abc123def", "fifoci", some (.i 7)⟩] ∧
    BuildStatusCollector.processResult ⟨["linux", "win"], ["fifoci"], "u", "j"⟩
        ⟨"fifoci", true, 2, "http://b/44",
          [("headrev", [.s "abc123def"]), ("repo", [.s "org/repo"]),
           ("shortrev", [.s "abc123"]), ("pr_id", [.i 7])]⟩
      = some [] := by
  refine ⟨by decide, ?_, ?_, ?_⟩
  · exact (c7_collector_classification ⟨["linux", "win"], ["fifoci"], "u", "j"⟩
      ⟨"linux", true, 1, "http://b/42",
        [("headrev", [.s "abc123def"]), ("repo", [.s "org/repo"]),
         ("shortrev", [.s "abc123"]), ("pr_id", [.i 7])]⟩
      [("headrev", .s "abc123def"), ("repo", .s "org/repo"),
       ("shortrev", .s "abc123"), ("pr_id", .i 7)]
      (.s "abc123def") (.s "org/repo") (.s "abc123")
      (by decide) (by decide) (by decide) (by decide)).2.1 (by decide) rfl rfl
  · exact (c7_collector_classification ⟨["linux", "win"], ["fifoci"], "u", "j"⟩
      ⟨"fifoci", true, 0, "http://b/43",
        [("headrev", [.s "abc123def"]), ("repo", [.s "org/repo"]),
         ("shortrev", [.s "abc123"]), ("pr_id", [.i 7])]⟩
      [("headrev", .s "abc123def"), ("repo", .s "org/repo"),
       ("shortrev", .s "abc123"), ("pr_id", .i 7)]
      (.s "abc123def") (.s "org/repo") (.s "abc123")
      (by decide) (by decide) (by decide) (by decide)).2.2.1 (by decide) (by decide)
      (by decide) rfl
  · exact (c7_collector_classification ⟨["linux", "win"], ["fifoci"], "u", "j"⟩
      ⟨"fifoci", true, 2, "http://b/44",
        [("headrev", [.s "abc123def"]), ("repo", [.s "org/repo"]),
         ("shortrev", [.s "abc123"]), ("pr_id", [.i 7])]⟩
      [("headrev", .s "abc123def"), ("repo", .s "org/repo"),
       ("shortrev", .s "abc123"), ("pr_id", .i 7)]
      (.s "abc123def") (.s "org/repo") (.s "abc123")
      (by decide) (by decide) (by decide) (by decide)).2.2.2 (by decide) (by decide)
      (by decide)

/-- Claim C8: a raw result whose collapsed properties are missing any of
`headrev`, `repo` or `shortrev` produces zero events — the result is silently
dropped, not an error, and nothing else happens. -/
theorem c8_missing_keys_dropped (cfg : BuildbotConfig) (evt : RawResult)
    (props : List (String × PV))
    (hc : collapseProps evt.properties = some props)
    (hmiss : props.lookup "headrev" = none ∨ props.lookup "repo" = none ∨
      props.lookup "shortrev" = none) :
    BuildStatusCollector.processResult cfg evt = some [] := by
  rw [BuildStatusCollector.processResult, hc]
  rcases hmiss with h | h | h
  · simp only [h]
  · cases h1 : props.lookup "headrev" with
    | none => simp only [h1]
    | some v1 => simp only [h1, h]
  · cases h1 : props.lookup "headrev" with
    | none => simp only [h1]
    | some v1 =>
      cases h2 : props.lookup "repo" with
      | none => simp only [h1, h2]
      | some v2 => simp only [h1, h2, h]

/-- Claim C8 witness: a result carrying `headrev` and `repo` but no
`shortrev` is dropped with zero events. -/
theorem c8_missing_keys_dropped_witness :
    collapseProps (RawResult.mk "linux" true 0 "http://b/45"
        [("headrev", [.s "abc123def"]), ("repo", [.s "org/repo"])]).properties
      = some [("headrev", .s "abc123def"), ("repo", .s "org/repo")] ∧
    ([("headrev", PV.s "abc123def"), ("repo", PV.s "org/repo")].lookup "headrev" = none ∨
      [("headrev", PV.s "abc123def"), ("repo", PV.s "org/repo")].lookup "repo" = none ∨
      [("headrev", PV.s "abc123def"), ("repo", PV.s "org/repo")].lookup "shortrev" = none) ∧
    BuildStatusCollector.processResult ⟨["linux", "win"], ["fifoci"], "u", "j"⟩
      ⟨"linux", true, 0, "http://b/45",
        [("headrev", [.s "abc123def"]), ("repo", [.s "org/repo"])]⟩ = some [] :=
  ⟨by decide, by decide,
    c8_missing_keys_dropped ⟨["linux", "win"], ["fifoci"], "u", "j"⟩
      ⟨"linux", true, 0, "http://b/45",
        [("headrev", [.s "abc123def"]), ("repo", [.s "org/repo"])]⟩
      [("headrev", .s "abc123def"), ("repo", .s "org/repo")] (by decide) (by decide)⟩

/-- Claim C10: a PR-builder result whose collapsed properties contain the
three required keys but no `pr_id` still yields exactly one status event,
carrying a null pull-request id — `ObjectLike.__getattr__` returns `None`
for the absent key instead of raising, so the result is neither dropped nor
an error. -/
theorem c10_missing_pr_id_still_reported (cfg : BuildbotConfig) (evt : RawResult)
    (props : List (String × PV)) (headrev repo shortrev : PV)
    (hc : collapseProps evt.properties = some props)
    (hh : props.lookup "headrev" = some headrev)
    (hr : props.lookup "repo" = some repo)
    (hs : props.lookup "shortrev" = some shortrev)
    (hnop : props.lookup "pr_id" = none)
    (hmem : evt.builder_name ∈ cfg.pr_builders) :
    ∃ e : BuildStatus, BuildStatusCollector.processResult cfg evt =
      some [CollectorEvent.status e] ∧ e.pullRequestId = none := by
  refine ⟨⟨repo, headrev, shortrev, evt.builder_name, props.lookup "pr_id",
    evt.results == 0 || evt.results == 1, !evt.complete, evt.url,
    if !evt.complete then "Auto build in progress on builder " ++ evt.builder_name
    else if evt.results == 0 || evt.results == 1 then
      "Build succeeded on builder " ++ evt.builder_name
    else "Build failed on builder " ++ evt.builder_name⟩, ?_, hnop⟩
  rw [BuildStatusCollector.processResult, hc]
  simp only [hh, hr, hs]
  rw [if_pos hmem]

/-- Claim C10 witness: a complete, successful result from PR builder
`"linux"` with `headrev`/`repo`/`shortrev` but no `pr_id` key yields one
status event whose pull-request id is `none`. -/
theorem c10_missing_pr_id_still_reported_witness :
    collapseProps (RawResult.mk "linux" true 0 "http://b/46"
        [("headrev", [.s "abc123def"]), ("repo", [.s "org/repo"]),
         ("shortrev", [.s "abc123"])]).properties
      = some [("headrev", .s "abc123def"), ("repo", .s "org/repo"),
          ("shortrev", .s "abc123")] ∧
    [("headrev", PV.s "abc123def"), ("repo", PV.s "org/repo"),
      ("shortrev", PV.s "abc123")].lookup "pr_id" = none ∧
    "linux" ∈ ["linux", "win"] ∧
    (∃ e : BuildStatus, BuildStatusCollector.processResult
        ⟨["linux", "win"], ["fifoci"], "u", "j"⟩
        ⟨"linux", true, 0, "http://b/46",
          [("headrev", [.s "abc123def"]), ("repo", [.s "org/repo"]),
           ("shortrev", [.s "abc123"])]⟩ =
      some [CollectorEvent.status e] ∧ e.pullRequestId = none) :=
  ⟨by decide, by decide, by decide,
    c10_missing_pr_id_still_reported ⟨["linux", "win"], ["fifoci"], "u", "j"⟩
      ⟨"linux", true, 0, "http://b/46",
        [("headrev", [.s "abc123def"]), ("repo", [.s "org/repo"]),
         ("shortrev", [.s "abc123"])]⟩
      [("headrev", .s "abc123def"), ("repo", .s "org/repo"), ("shortrev", .s "abc123")]
      (.s "abc123def") (.s "org/repo") (.s "abc123")
      (by decide) (by decide) (by decide) (by decide) (by decide) (by decide)⟩

/-- Claim C9 (counterexample): the claim asserts that no comma byte appears in
`make_netstring s` before the payload ends at the declared length.  For the
one-byte payload `s = [44]` (a single comma), the output is `1:,,` =
`[49, 58, 44, 44]`; the header is 2 bytes and the declared length is 1, so the
payload ends at index 3, yet the byte at index 2 (before that point) is a
comma. -/
theorem c9_counterexample :
    make_netstring [44] = [49, 58, 44, 44] ∧
    (decRepr (List.length ([44] : List Nat))).length + 1 + List.length ([44] : List Nat) = 3 ∧
    (make_netstring [44]).getD 2 0 = 44 ∧ 2 < 3 := by
  decide

/-- Claim C9 (amended): for every byte sequence `s`, `make_netstring s` is the
decimal ASCII length, a colon, `s` itself, and a trailing comma, with no other
framing; parsing the produced netstring (read the length up to the colon, take
exactly that many payload bytes, expect a trailing comma) yields `s` exactly;
and no comma appears in the output before the payload *begins* (the length
header holds only decimal digits, and the following byte is the colon) — a
comma inside `s` itself does appear before the payload's end, so the original
"before the payload ends" phrasing does not hold. -/
theorem c9_netstring_roundtrip (s : List Nat) :
    make_netstring s = decRepr s.length ++ [58] ++ s ++ [44] ∧
    parseNetstring (make_netstring s) = some s ∧
    (∀ b ∈ decRepr s.length, 48 ≤ b ∧ b ≤ 57) ∧
    (∀ b ∈ decRepr s.length ++ [58], b ≠ 44) := by
  refine ⟨rfl, parse_make_netstring s, decRepr_bounds s.length, ?_⟩
  intro b hb
  rcases List.mem_append.mp hb with h | h
  · have := decRepr_bounds s.length b h
    omega
  · simp at h
    omega

/-- Claim C9 witness: the amended statement evaluated on the concrete payload
`[65, 66]` (`b"AB"`), whose netstring is `2:AB,`. -/
theorem c9_netstring_roundtrip_witness :
    parseNetstring (make_netstring [65, 66]) = some [65, 66] ∧
    make_netstring [65, 66] = [50, 58, 65, 66, 44] :=
  ⟨(c9_netstring_roundtrip [65, 66]).2.1, by decide⟩

/-! ## ASCII-ness of the JSON encoding -/

theorem char_toNat_ofNat {n : Nat} (h : n < 55296) : (Char.ofNat n).toNat = n := by
  have hv : n.isValidChar := Or.inl h
  rw [Char.ofNat, dif_pos hv]
  rfl

theorem asciiChars_append {l1 l2 : List Char} (h1 : asciiChars l1) (h2 : asciiChars l2) :
    asciiChars (l1 ++ l2) := by
  intro c hc
  rcases List.mem_append.mp hc with h | h
  · exact h1 c h
  · exact h2 c h

theorem hexChar_toNat_lt (n : Nat) (h : n < 16) : (hexChar n).toNat < 128 := by
  rw [hexChar]
  split
  · rw [char_toNat_ofNat (by omega)]
    omega
  · rw [char_toNat_ofNat (by omega)]
    omega

theorem uEscape_ascii (n : Nat) : asciiChars (uEscape n) := by
  intro c hc
  simp only [uEscape, List.mem_cons, List.not_mem_nil, or_false] at hc
  rcases hc with rfl | rfl | rfl | rfl | rfl | rfl
  · decide
  · decide
  · exact hexChar_toNat_lt _ (Nat.mod_lt _ (by norm_num))
  · exact hexChar_toNat_lt _ (Nat.mod_lt _ (by norm_num))
  · exact hexChar_toNat_lt _ (Nat.mod_lt _ (by norm_num))
  · exact hexChar_toNat_lt _ (Nat.mod_lt _ (by norm_num))

theorem escapeChar_ascii (c : Char) : asciiChars (escapeChar c) := by
  rw [escapeChar]
  by_cases h1 : c = '\\'
  · rw [if_pos h1]; decide
  rw [if_neg h1]
  by_cases h2 : c = Char.ofNat 34
  · rw [if_pos h2]; decide
  rw [if_neg h2]
  by_cases h3 : c = Char.ofNat 10
  · rw [if_pos h3]; decide
  rw [if_neg h3]
  by_cases h4 : c = Char.ofNat 13
  · rw [if_pos h4]; decide
  rw [if_neg h4]
  by_cases h5 : c = Char.ofNat 9
  · rw [if_pos h5]; decide
  rw [if_neg h5]
  by_cases h6 : c = Char.ofNat 8
  · rw [if_pos h6]; decide
  rw [if_neg h6]
  by_cases h7 : c = Char.ofNat 12
  · rw [if_pos h7]; decide
  rw [if_neg h7]
  by_cases h8 : c.toNat < 32
  · rw [if_pos h8]; exact uEscape_ascii _
  rw [if_neg h8]
  by_cases h9 : c.toNat < 127
  · rw [if_pos h9]
    intro x hx
    simp only [List.mem_cons, List.not_mem_nil, or_false] at hx
    subst hx
    omega
  rw [if_neg h9]
  by_cases h10 : c.toNat < 65536
  · rw [if_pos h10]; exact uEscape_ascii _
  rw [if_neg h10]
  exact asciiChars_append (uEscape_ascii _) (uEscape_ascii _)

theorem jsonStrChars_ascii (s : String) : asciiChars (jsonStrChars s) := by
  rw [jsonStrChars]
  intro c hc
  rcases List.mem_cons.mp hc with rfl | hc2
  · decide
  · rcases List.mem_append.mp hc2 with h | h
    · rw [List.mem_flatten] at h
      obtain ⟨l, hl, hcl⟩ := h
      obtain ⟨d, _, rfl⟩ := List.mem_map.mp hl
      exact escapeChar_ascii d c hcl
    · simp only [List.mem_cons, List.not_mem_nil, or_false] at h
      subst h
      decide

theorem decChars_ascii (n : Nat) : asciiChars (decChars n) := by
  intro c hc
  rw [decChars] at hc
  obtain ⟨d, hd, rfl⟩ := List.mem_map.mp hc
  have := decDigits_lt_ten n d hd
  rw [char_toNat_ofNat (by omega)]
  omega

theorem jsonStrListChars_ascii (l : List String) : asciiChars (jsonStrListChars l) := by
  induction l with
  | nil =>
    intro c hc
    simp [jsonStrListChars] at hc
  | cons x xs ih =>
    cases xs with
    | nil => simpa [jsonStrListChars] using jsonStrChars_ascii x
    | cons y rest =>
      rw [jsonStrListChars]
      intro c hc
      simp only [List.mem_append] at hc
      rcases hc with (h | h) | h
      · exact jsonStrChars_ascii x c h
      · revert h
        have : asciiChars [',', ' '] := by decide
        exact fun h => this c h
      · exact ih c h

theorem jsonKey_ascii (k : String) : asciiChars (jsonKey k) :=
  asciiChars_append (jsonStrChars_ascii k) (by decide)

theorem jsonOptStrChars_ascii (o : Option String) : asciiChars (jsonOptStrChars o) := by
  cases o with
  | none => decide
  | some sv => exact jsonStrChars_ascii sv

theorem dumpRequestDict_ascii (d : BuildRequestDict) : asciiChars (dumpRequestDict d) := by
  intro c hc
  rw [dumpRequestDict, List.mem_flatten] at hc
  obtain ⟨l, hl, hcl⟩ := hc
  rw [requestSegments] at hl
  simp only [List.mem_cons, List.not_mem_nil, or_false] at hl
  rcases hl with rfl | rfl | rfl | rfl | rfl | rfl | rfl | rfl | rfl | rfl | rfl | rfl | rfl |
    rfl | rfl | rfl | rfl | rfl | rfl | rfl | rfl | rfl | rfl | rfl | rfl | rfl | rfl | rfl |
    rfl | rfl | rfl | rfl | rfl | rfl | rfl | rfl | rfl | rfl | rfl | rfl | rfl | rfl | rfl |
    rfl | rfl | rfl | rfl
  all_goals first
    | exact jsonKey_ascii _ c hcl
    | exact jsonStrChars_ascii _ c hcl
    | exact jsonStrListChars_ascii _ c hcl
    | exact decChars_ascii _ c hcl
    | exact jsonOptStrChars_ascii _ c hcl
    | (simp only [List.mem_cons, List.not_mem_nil, or_false] at hcl
       rcases hcl with rfl | rfl <;> decide)

/-! ## Worker supervision -/

theorem runOnce_exhausted (cfg : BuildbotConfig) (fetch : Trigger → Except String PRInfo) :
    ∀ q : List Trigger, (PullRequestBuilder.runOnce cfg fetch q).2 = none →
      (PullRequestBuilder.runOnce cfg fetch q).1
        = q.filterMap (fun t => (PullRequestBuilder.processTriggerE cfg fetch t).toOption) := by
  intro q
  induction q with
  | nil => intro _; rfl
  | cons t ts ih =>
    intro h2
    cases h : PullRequestBuilder.processTriggerE cfg fetch t with
    | error e =>
      simp only [PullRequestBuilder.runOnce, h] at h2
      exact absurd h2 (by simp)
    | ok out =>
      have htop : (PullRequestBuilder.processTriggerE cfg fetch t).toOption = some out := by
        rw [h]
        rfl
      simp only [PullRequestBuilder.runOnce, h] at h2 ⊢
      simp only [List.filterMap_cons, htop]
      simp [ih h2]

theorem runOnce_crashed (cfg : BuildbotConfig) (fetch : Trigger → Except String PRInfo) :
    ∀ q rem : List Trigger, (PullRequestBuilder.runOnce cfg fetch q).2 = some rem →
      rem.length < q.length ∧
      q.filterMap (fun t => (PullRequestBuilder.processTriggerE cfg fetch t).toOption)
        = (PullRequestBuilder.runOnce cfg fetch q).1
          ++ rem.filterMap (fun t => (PullRequestBuilder.processTriggerE cfg fetch t).toOption) := by
  intro q
  induction q with
  | nil =>
    intro rem h
    simp [PullRequestBuilder.runOnce] at h
  | cons t ts ih =>
    intro rem h2
    cases h : PullRequestBuilder.processTriggerE cfg fetch t with
    | error e =>
      have htop : (PullRequestBuilder.processTriggerE cfg fetch t).toOption = none := by
        rw [h]
        rfl
      simp only [PullRequestBuilder.runOnce, h] at h2 ⊢
      have h3 := Option.some.inj h2
      subst h3
      constructor
      · simp
      · simp only [List.filterMap_cons, htop]
        simp
    | ok out =>
      have htop : (PullRequestBuilder.processTriggerE cfg fetch t).toOption = some out := by
        rw [h]
        rfl
      simp only [PullRequestBuilder.runOnce, h] at h2 ⊢
      obtain ⟨hlen, hsplit⟩ := ih rem h2
      constructor
      · simp
        omega
      · simp only [List.filterMap_cons, htop]
        simp [hsplit]

/-- Claim C3: an exception while processing one trigger (modelled at the
external fetch call) never terminates the supervised worker: with enough
supervision fuel, every queued trigger is still attempted, in order, and the
output is exactly the concatenation of the outputs of the triggers whose
processing succeeded — triggers queued after a failing one are processed
normally. -/
theorem c3_worker_survives_exceptions (cfg : BuildbotConfig)
    (fetch : Trigger → Except String PRInfo) (fuel : Nat) :
    ∀ queue : List Trigger, queue.length < fuel →
      PullRequestBuilder.supervisedRun cfg fetch fuel queue
        = queue.filterMap
            (fun t => (PullRequestBuilder.processTriggerE cfg fetch t).toOption) := by
  induction fuel with
  | zero =>
    intro q h
    omega
  | succ f ih =>
    intro q hq
    rw [PullRequestBuilder.supervisedRun]
    cases h2 : PullRequestBuilder.runOnce cfg fetch q with
    | mk outs orem =>
      cases orem with
      | none =>
        have hout := runOnce_exhausted cfg fetch q (by rw [h2])
        rw [h2] at hout
        simpa using hout
      | some rem =>
        obtain ⟨hlen, hsplit⟩ := runOnce_crashed cfg fetch q rem (by rw [h2])
        rw [h2] at hsplit
        show outs ++ PullRequestBuilder.supervisedRun cfg fetch f rem = _
        rw [ih rem (by omega)]
        exact hsplit.symm

/-- Claim C3 witness: a queue of two trusted triggers where the fetch for the
first raises and the fetch for the second succeeds; the supervised worker
still produces exactly the second trigger's output. -/
theorem c3_worker_survives_exceptions_witness :
    List.length [Trigger.mk "a" true "r" 1, Trigger.mk "b" true "r" 2] < 3 ∧
    PullRequestBuilder.supervisedRun ⟨["linux"], [], "u", "j"⟩
        (fun t => if t.pr_id = 1 then Except.error "HTTPError"
          else Except.ok ⟨some true, "clean", "b0", "abc123def"⟩) 3
        [Trigger.mk "a" true "r" 1, Trigger.mk "b" true "r" 2]
      = List.filterMap
          (fun t => (PullRequestBuilder.processTriggerE ⟨["linux"], [], "u", "j"⟩
            (fun t => if t.pr_id = 1 then Except.error "HTTPError"
              else Except.ok ⟨some true, "clean", "b0", "abc123def"⟩) t).toOption)
          [Trigger.mk "a" true "r" 1, Trigger.mk "b" true "r" 2] :=
  ⟨by decide, c3_worker_survives_exceptions _ _ 3 _ (by decide)⟩

/-! ## The Supervised Task Runner -/

theorem invokeCount_runTrace (target : Nat → Except String Unit) :
    ∀ fuel i : Nat, invokeCount (DaemonThread.runTrace target fuel i) = fuel := by
  intro fuel
  induction fuel with
  | zero => intro i; rfl
  | succ f ih =>
    intro i
    rw [DaemonThread.runTrace]
    cases h : target i with
    | error e =>
      have := ih (i + 1)
      simp only [invokeCount, List.filter_cons] at this ⊢
      simp [h, this]
    | ok u =>
      have := ih (i + 1)
      simp only [invokeCount, List.filter_cons] at this ⊢
      simp [h, this]

/-- Claim C4 (counterexample): with the target that raises on its first two
invocations and returns normally afterwards, `DaemonThread.run` does not stop
at the third invocation — `while True` restarts the target after a normal
return as well, so after 4 loop iterations the target has been invoked 4
times, contradicting "invoked exactly three times". -/
theorem c4_counterexample :
    invokeCount (DaemonThread.runTrace
      (fun i => if i < 2 then Except.error "boom" else Except.ok ()) 4 0) = 4 ∧
    ¬ invokeCount (DaemonThread.runTrace
      (fun i => if i < 2 then Except.error "boom" else Except.ok ()) 4 0) = 3 := by
  decide

/-- Claim C4 (amended): with a target that raises on its first two invocations
and returns normally from the third on, the supervisor invokes the target at
*least* three times — in fact once per loop iteration, forever (the loop also
restarts a target that returned normally); the one-second log-and-sleep step
is observed between the failed attempts (and only there), and the process
never terminates: the trace is defined for every amount of fuel and begins
`invoke 0, log+sleep, invoke 1, log+sleep, invoke 2, ...`. -/
theorem c4_supervisor_restarts_forever (f : Nat) :
    invokeCount (DaemonThread.runTrace
      (fun i => if i < 2 then Except.error "boom" else Except.ok ()) f 0) = f ∧
    (3 ≤ f → (DaemonThread.runTrace
        (fun i => if i < 2 then Except.error "boom" else Except.ok ()) f 0).take 5
      = [DtAction.invoke 0, DtAction.logSleep, DtAction.invoke 1, DtAction.logSleep,
         DtAction.invoke 2]) := by
  refine ⟨invokeCount_runTrace _ f 0, ?_⟩
  intro hf
  obtain ⟨k, rfl⟩ : ∃ k, f = k + 3 := ⟨f - 3, by omega⟩
  show (DtAction.invoke 0 :: DtAction.logSleep :: DtAction.invoke 1 :: DtAction.logSleep ::
      DtAction.invoke 2 :: DaemonThread.runTrace
        (fun i => if i < 2 then Except.error "boom" else Except.ok ()) k 3).take 5 = _
  rfl

/-- Claim C4 witness: the amended statement evaluated at 4 loop iterations. -/
theorem c4_supervisor_restarts_forever_witness :
    invokeCount (DaemonThread.runTrace
      (fun i => if i < 2 then Except.error "boom" else Except.ok ()) 4 0) = 4 ∧
    (DaemonThread.runTrace
      (fun i => if i < 2 then Except.error "boom" else Except.ok ()) 4 0).take 5
    = [DtAction.invoke 0, DtAction.logSleep, DtAction.invoke 1, DtAction.logSleep,
       DtAction.invoke 2] :=
  ⟨(c4_supervisor_restarts_forever 4).1, (c4_supervisor_restarts_forever 4).2 (by norm_num)⟩

/-- The `tmp/` path and the `new/` path can never coincide, whatever the
unique names are: they differ at the directory component. -/
theorem tmpPath_ne_newPath (j a b : String) :
    pathJoin (pathJoin j "tmp") a ≠ pathJoin (pathJoin j "new") b := by
  intro h
  have h2 : (pathJoin (pathJoin j "tmp") a).data = (pathJoin (pathJoin j "new") b).data := by
    rw [h]
  have htmp : String.data "tmp" = ['t', 'm', 'p'] := rfl
  have hnew : String.data "new" = ['n', 'e', 'w'] := rfl
  have hslash : String.data "/" = ['/'] := rfl
  simp only [pathJoin, String.data_append, htmp, hnew, hslash, List.append_assoc] at h2
  have h3 := List.append_cancel_left h2
  simp at h3

/-- Claim C6: a successful `send_build_request` leaves the file system with
the encoded request at the fresh `new/` path (byte-identical contents), no
file any longer at the `tmp/` path it was first written to, and no other
path affected; the final step is the single atomic rename, not a copy. -/
theorem c6_send_build_request (jobdir u1 u2 : String) (req : List Nat) (fs : FS)
    (hfresh : fs (pathJoin (pathJoin jobdir "new") u2) = none) :
    ∃ fs2, send_build_request jobdir u1 u2 req fs = some fs2 ∧
      fs2 (pathJoin (pathJoin jobdir "new") u2) = some req ∧
      fs2 (pathJoin (pathJoin jobdir "tmp") u1) = none ∧
      fs (pathJoin (pathJoin jobdir "new") u2) = none ∧
      (∀ p, p ≠ pathJoin (pathJoin jobdir "tmp") u1 →
        p ≠ pathJoin (pathJoin jobdir "new") u2 → fs2 p = fs p) := by
  have hne := tmpPath_ne_newPath jobdir u1 u2
  refine ⟨Function.update (Function.update
      (fsWrite fs (pathJoin (pathJoin jobdir "tmp") u1) req)
      (pathJoin (pathJoin jobdir "tmp") u1) none)
      (pathJoin (pathJoin jobdir "new") u2) (some req), ?_, ?_, ?_, hfresh, ?_⟩
  · simp only [send_build_request, osRename, fsWrite, Function.update_same]
  · rw [Function.update_same]
  · rw [Function.update_noteq hne, Function.update_same]
  · intro p hp1 hp2
    rw [Function.update_noteq hp2, Function.update_noteq hp1, fsWrite,
      Function.update_noteq hp1]

/-- Claim C6 witness: submitting a concrete request to an empty job directory
produces exactly the `new/` file with identical bytes and leaves no `tmp/`
file behind. -/
theorem c6_send_build_request_witness :
    (fun _ : String => (none : Option (List Nat)))
      (pathJoin (pathJoin "jobs" "new") "uuid-b") = none ∧
    ∃ fs2, send_build_request "jobs" "uuid-a" "uuid-b" [49, 58, 53, 44]
        (fun _ => none) = some fs2 ∧
      fs2 (pathJoin (pathJoin "jobs" "new") "uuid-b") = some [49, 58, 53, 44] ∧
      fs2 (pathJoin (pathJoin "jobs" "tmp") "uuid-a") = none ∧
      (fun _ : String => (none : Option (List Nat)))
        (pathJoin (pathJoin "jobs" "new") "uuid-b") = none ∧
      (∀ p, p ≠ pathJoin (pathJoin "jobs" "tmp") "uuid-a" →
        p ≠ pathJoin (pathJoin "jobs" "new") "uuid-b" → fs2 p = (fun _ => none) p) :=
  ⟨rfl, c6_send_build_request "jobs" "uuid-a" "uuid-b" [49, 58, 53, 44] (fun _ => none) rfl⟩

/-- Claim C5: every `make_build_request` result is the concatenation of the
netstring encoding of `b"5"` and the netstring encoding of the ASCII-only
JSON rendering of the request dictionary, so it always begins with the bytes
`"1:5,"` = `[49, 58, 53, 44]`; the `properties.shortrev` entry of the encoded
dictionary is the first 6 characters of the `headrev` argument; and the job
id `PullRequestBuilder.run` passes in is `"{pr_id}-{head_sha[:6]}"`. -/
theorem c5_build_request_format (pr_builders : List String) (repo : String) (pr_id : Nat)
    (job_id baserev headrev who comment : String) :
    make_build_request pr_builders repo pr_id job_id baserev headrev who comment
      = make_netstring (strBytes "5")
        ++ make_netstring ((dumpRequestDict (make_request_dict pr_builders repo pr_id job_id
            baserev headrev who comment)).map Char.toNat) ∧
    (∀ b ∈ (dumpRequestDict (make_request_dict pr_builders repo pr_id job_id baserev headrev
        who comment)).map Char.toNat, b < 128) ∧
    (make_build_request pr_builders repo pr_id job_id baserev headrev who comment).take 4
      = [49, 58, 53, 44] ∧
    (make_request_dict pr_builders repo pr_id job_id baserev headrev who
        comment).properties.shortrev = headrev.take 6 ∧
    (∀ (cfg : BuildbotConfig) (t : Trigger) (pr : PRInfo),
      t.trusted = true → pr.mergeable ≠ some false →
      (PullRequestBuilder.processTrigger cfg t pr).getLast? =
        some (.submit (make_build_request cfg.pr_builders t.repo t.pr_id
          (decStr t.pr_id ++ "-" ++ pr.head_sha.take 6) pr.base_sha pr.head_sha
          ("Central (on behalf of: " ++ t.in_behalf_of ++ ")")
          ("Auto build for PR #" ++ decStr t.pr_id ++ " (" ++ pr.head_sha ++ ").")))) := by
  refine ⟨?_, ?_, ?_, ?_, ?_⟩
  · rfl
  · intro b hb
    obtain ⟨c, hc, rfl⟩ := List.mem_map.mp hb
    exact dumpRequestDict_ascii _ c hc
  · have h5 : make_netstring (strBytes "5") = [49, 58, 53, 44] := by decide
    show (make_netstring (strBytes "5") ++ _).take 4 = [49, 58, 53, 44]
    rw [h5]
    exact List.take_left' rfl
  · rw [make_request_dict]
  · intro cfg t pr ht hm
    rw [PullRequestBuilder.processTrigger]
    simp only [ht]
    rw [if_neg (by simp), if_neg hm]
    rw [List.append_assoc, List.getLast?_append]
    simp [List.getLast?_concat]

/-- Claim C1: for every trusted trigger, if the fetched `mergeable` field is
explicitly `false` the worker emits exactly one rejection event (builder
`"default"`, `success = false`, `pending = false`, description `"PR cannot be
merged, please rebase."`) and submits no job; otherwise it emits the
aggregate `success = true, pending = false` event first, then one
`pending = true, success = false` placeholder with description
`"Auto build pending"` per configured builder in configured order, followed
by exactly one job submission — so 3 events for builders
`["linux", "win"]`. -/
theorem c1_trusted_mergeable_gate (cfg : BuildbotConfig) (t : Trigger) (pr : PRInfo)
    (ht : t.trusted = true) :
    (pr.mergeable = some false →
      PullRequestBuilder.processTrigger cfg t pr =
        [.dispatch ⟨.s t.repo, .s pr.head_sha, .s (pr.head_sha.take 6), "default",
          some (.i t.pr_id), false, false, "", "PR cannot be merged, please rebase."⟩]) ∧
    (pr.mergeable ≠ some false →
      PullRequestBuilder.processTrigger cfg t pr =
        [WorkerAction.dispatch ⟨.s t.repo, .s pr.head_sha, .s (pr.head_sha.take 6), "default",
          some (.i t.pr_id), true, false, "",
          "Very basic checks passed, handed off to Buildbot."⟩]
        ++ cfg.pr_builders.map (fun builder =>
            .dispatch ⟨.s t.repo, .s pr.head_sha, .s (pr.head_sha.take 6), builder,
              some (.i t.pr_id), false, true, cfg.url, "Auto build pending"⟩)
        ++ [.submit (make_build_request cfg.pr_builders t.repo t.pr_id
              (decStr t.pr_id ++ "-" ++ pr.head_sha.take 6) pr.base_sha pr.head_sha
              ("Central (on behalf of: " ++ t.in_behalf_of ++ ")")
              ("Auto build for PR #" ++ decStr t.pr_id ++ " (" ++ pr.head_sha ++ ")."))]) ∧
    (pr.mergeable ≠ some false → cfg.pr_builders = ["linux", "win"] →
      ((PullRequestBuilder.processTrigger cfg t pr).filter (fun a => match a with
          | .dispatch _ => true | .submit _ => false)).length = 3 ∧
      ((PullRequestBuilder.processTrigger cfg t pr).filter (fun a => match a with
          | .dispatch _ => false | .submit _ => true)).length = 1) := by
  refine ⟨?_, ?_, ?_⟩
  · intro hm
    rw [PullRequestBuilder.processTrigger]
    simp only [ht]
    rw [if_neg (by simp), if_pos hm]
  · intro hm
    rw [PullRequestBuilder.processTrigger]
    simp only [ht]
    rw [if_neg (by simp), if_neg hm]
  · intro hm hb
    rw [PullRequestBuilder.processTrigger]
    simp only [ht]
    rw [if_neg (by simp), if_neg hm, hb]
    constructor <;> rfl

/-- Claim C1 witness: a trusted trigger against an unmergeable pull request
yields the single rejection event; against a mergeable one with builders
`["linux", "win"]` it yields 3 status events and 1 submission. -/
theorem c1_trusted_mergeable_gate_witness :
    (Trigger.mk "alice" true "org/repo" 7).trusted = true ∧
    PullRequestBuilder.processTrigger ⟨["linux", "win"], [], "http://bb", "jobs"⟩
        ⟨"alice", true, "org/repo", 7⟩ ⟨some false, "dirty", "b0", "abc123def"⟩ =
      [.dispatch ⟨.s "org/repo", .s "abc123def", .s ("abc123def".take 6), "default",
        some (.i 7), false, false, "", "PR cannot be merged, please rebase."⟩] ∧
    ((PullRequestBuilder.processTrigger ⟨["linux", "win"], [], "http://bb", "jobs"⟩
        ⟨"alice", true, "org/repo", 7⟩ ⟨none, "unknown", "b0", "abc123def"⟩).filter
        (fun a => match a with | .dispatch _ => true | .submit _ => false)).length = 3 ∧
    ((PullRequestBuilder.processTrigger ⟨["linux", "win"], [], "http://bb", "jobs"⟩
        ⟨"alice", true, "org/repo", 7⟩ ⟨none, "unknown", "b0", "abc123def"⟩).filter
        (fun a => match a with | .dispatch _ => false | .submit _ => true)).length = 1 := by
  refine ⟨rfl, ?_, ?_, ?_⟩
  · exact (c1_trusted_mergeable_gate _ _ _ rfl).1 rfl
  · exact ((c1_trusted_mergeable_gate ⟨["linux", "win"], [], "http://bb", "jobs"⟩
      ⟨"alice", true, "org/repo", 7⟩ ⟨none, "unknown", "b0", "abc123def"⟩ rfl).2.2
      (by simp) rfl).1
  · exact ((c1_trusted_mergeable_gate ⟨["linux", "win"], [], "http://bb", "jobs"⟩
      ⟨"alice", true, "org/repo", 7⟩ ⟨none, "unknown", "b0", "abc123def"⟩ rfl).2.2
      (by simp) rfl).2

/-- Claim C2: for every trigger with `trusted = false`, the worker emits
exactly one status event (builder `"default"`, `success = false`,
`pending = false`, description `"PR not built because <requestedBy> is not
auto-trusted."`) and never submits a job. -/
theorem c2_untrusted_rejected (cfg : BuildbotConfig) (t : Trigger) (pr : PRInfo)
    (ht : t.trusted = false) :
    PullRequestBuilder.processTrigger cfg t pr =
      [.dispatch ⟨.s t.repo, .s pr.head_sha, .s (pr.head_sha.take 6), "default",
        some (.i t.pr_id), false, false, "",
        "PR not built because " ++ t.in_behalf_of ++ " is not auto-trusted."⟩] ∧
    (∀ r, WorkerAction.submit r ∉ PullRequestBuilder.processTrigger cfg t pr) := by
  have heq : PullRequestBuilder.processTrigger cfg t pr =
      [.dispatch ⟨.s t.repo, .s pr.head_sha, .s (pr.head_sha.take 6), "default",
        some (.i t.pr_id), false, false, "",
        "PR not built because " ++ t.in_behalf_of ++ " is not auto-trusted."⟩] := by
    rw [PullRequestBuilder.processTrigger]
    simp only [ht]
    rw [if_pos trivial]
  refine ⟨heq, ?_⟩
  intro r
  rw [heq]
  simp

/-- Claim C2 witness: the untrusted trigger `(mallory, untrusted,
"org/repo", 9)` yields exactly the single rejection event and no
submission. -/
theorem c2_untrusted_rejected_witness :
    (Trigger.mk "mallory" false "org/repo" 9).trusted = false ∧
    PullRequestBuilder.processTrigger ⟨["linux", "win"], [], "http://bb", "jobs"⟩
        ⟨"mallory", false, "org/repo", 9⟩ ⟨some true, "clean", "b0", "abc123def"⟩ =
      [.dispatch ⟨.s "org/repo", .s "abc123def", .s ("abc123def".take 6), "default",
        some (.i 9), false, false, "",
        "PR not built because " ++ "mallory" ++ " is not auto-trusted."⟩] ∧
    WorkerAction.submit [] ∉ PullRequestBuilder.processTrigger
      ⟨["linux", "win"], [], "http://bb", "jobs"⟩ ⟨"mallory", false, "org/repo", 9⟩
      ⟨some true, "clean", "b0", "abc123def"⟩ := by
  refine ⟨rfl, ?_, ?_⟩
  · exact (c2_untrusted_rejected ⟨["linux", "win"], [], "http://bb", "jobs"⟩
      ⟨"mallory", false, "org/repo", 9⟩ ⟨some true, "clean", "b0", "abc123def"⟩ rfl).1
  · exact (c2_untrusted_rejected ⟨["linux", "win"], [], "http://bb", "jobs"⟩
      ⟨"mallory", false, "org/repo", 9⟩ ⟨some true, "clean", "b0", "abc123def"⟩ rfl).2 []

/-- Claim C5 witness: the format facts evaluated on a concrete request; the
encoded bytes for trigger `(alice, trusted, "org/repo", 7)` with head
revision `"abc123def"` start with `"1:5,"`, and the last worker action is the
submission with job id `"7-abc123"`. -/
theorem c5_build_request_format_witness :
    (make_build_request ["linux", "win"] "org/repo" 7 "7-abc123" "base00" "abc123def" "w"
      "c").take 4 = [49, 58, 53, 44] ∧
    (make_request_dict ["linux", "win"] "org/repo" 7 "7-abc123" "base00" "abc123def" "w"
      "c").properties.shortrev = "abc123def".take 6 ∧
    (Trigger.mk "alice" true "org/repo" 7).trusted = true ∧
    (PRInfo.mk (some true) "clean" "b0" "abc123def").mergeable ≠ some false ∧
    (PullRequestBuilder.processTrigger ⟨["linux", "win"], [], "http://bb", "jobs"⟩
        ⟨"alice", true, "org/repo", 7⟩ ⟨some true, "clean", "b0", "abc123def"⟩).getLast? =
      some (.submit (make_build_request ["linux", "win"] "org/repo" 7
        (decStr 7 ++ "-" ++ "abc123def".take 6) "b0" "abc123def"
        ("Central (on behalf of: " ++ "alice" ++ ")")
        ("Auto build for PR #" ++ decStr 7 ++ " (" ++ "abc123def" ++ ")."))) := by
  refine ⟨(c5_build_request_format ["linux", "win"] "org/repo" 7 "7-abc123" "base00" "abc123def"
      "w" "c").2.2.1,
    (c5_build_request_format ["linux", "win"] "org/repo" 7 "7-abc123" "base00" "abc123def"
      "w" "c").2.2.2.1, rfl, by decide, ?_⟩
  exact (c5_build_request_format ["linux", "win"] "org/repo" 7 "7-abc123" "base00" "abc123def"
      "w" "c").2.2.2.2 ⟨["linux", "win"], [], "http://bb", "jobs"⟩
      ⟨"alice", true, "org/repo", 7⟩ ⟨some true, "clean", "b0", "abc123def"⟩ rfl (by decide)
